import Mathlib

/-!
Shallow embedding of src/tools/simulate.py (RocketPy flight-simulation
configuration script) and proofs about the claims of its specification.

Conventions of the embedding:
  - exact decimal constants of the source are embedded as rationals;
    quantities whose source formula involves pi live in the reals;
  - the forecast network call inside build_environment is external; it is
    modelled as an explicit outcome parameter (success or an exception
    message), so build_environment is a pure function of that outcome;
  - attachment primitives of the external library (add_motor, add_nose,
    add_trapezoidal_fins, add_parachute) and the recovery-trigger state
    machine are modelled from the spec where their code is not part of
    this repository; their model definitions say so in their doc comments.
-/

namespace Simulate

/-! ### Launch-site constants (source lines 12-15) -/

def LAUNCH_LATITUDE : ℚ := 35.5

def LAUNCH_LONGITUDE : ℚ := -102.3

def LAUNCH_ELEVATION_M : ℚ := 971.1

def LAUNCH_DATETIME_UTC : ℕ × ℕ × ℕ × ℕ := (2025, 10, 12, 18)

/-! ### Thrust curve (source lines 19-58), time in seconds, thrust in newtons -/

def THRUST_CURVE : List (ℚ × ℚ) := [
  (0.0, 0.0),
  (0.05, 1079.788),
  (0.1, 1088.74),
  (0.15, 1097.568),
  (0.2, 1106.256),
  (0.25, 1114.817),
  (0.3, 1123.25),
  (0.35, 1131.537),
  (0.4, 1139.693),
  (0.45, 1147.717),
  (0.6, 1170.926),
  (0.75, 1192.838),
  (0.9, 1213.417),
  (1.05, 1232.629),
  (1.2, 1250.441),
  (1.35, 1266.824),
  (1.5, 1281.753),
  (1.65, 1295.201),
  (1.8, 1307.148),
  (1.95, 1317.574),
  (2.1, 1326.462),
  (2.25, 1333.799),
  (2.4, 1339.572),
  (2.55, 1343.772),
  (2.7, 1346.392),
  (2.85, 1347.429),
  (3.0, 1346.88),
  (3.15, 1344.745),
  (3.3, 1341.029),
  (3.45, 1335.738),
  (3.6, 1328.878),
  (3.75, 1320.462),
  (3.9, 1310.502),
  (4.05, 1299.015),
  (4.2, 1286.018),
  (4.35, 1271.533),
  (4.5, 1255.583),
  (4.53, 0.0)]

/-! ### Motor data (source lines 61-73) -/

def MOTOR_DRY_MASS : ℚ := 2.871

def PROP_MASS : ℝ := 3.019

def MOTOR_DRY_INERTIA : ℚ × ℚ × ℚ := (0.0697, 0.0697, 0.0034)

def GRAIN_COUNT : ℕ := 3

def GRAIN_OUTER_RADIUS : ℝ := 0.04

def GRAIN_INNER_RADIUS : ℝ := 0.01

def GRAIN_LENGTH : ℝ := 0.12

/-- Source line 68: GRAIN_DENSITY = PROP_MASS / (GRAIN_COUNT * pi *
(GRAIN_OUTER_RADIUS**2 - GRAIN_INNER_RADIUS**2) * GRAIN_LENGTH). -/
noncomputable def GRAIN_DENSITY : ℝ :=
  PROP_MASS /
    ((GRAIN_COUNT : ℝ) * Real.pi *
      (GRAIN_OUTER_RADIUS ^ 2 - GRAIN_INNER_RADIUS ^ 2) * GRAIN_LENGTH)

def GRAIN_SEPARATION : ℚ := 0.005

def MOTOR_CG_FROM_NOZZLE : ℚ := 0.267

def NOZZLE_RADIUS : ℚ := 0.02

def THROAT_RADIUS : ℚ := 0.011

def BURN_TIME : ℚ := 4.53

/-! ### Rocket geometry (source lines 76-85) -/

def ROCKET_RADIUS : ℚ := 0.051054

def ROCKET_LENGTH : ℚ := 2.5

def ROCKET_DRY_MASS : ℚ := 10.984

def ROCKET_DRY_INERTIA : ℚ × ℚ × ℚ := (5.72, 5.72, 0.015)

def ROCKET_DRY_CG_FROM_TAIL : ℚ := 0.998

def FIN_ROOT_CHORD : ℚ := 0.3334

def FIN_TIP_CHORD : ℚ := 0.0510

def FIN_SPAN : ℚ := 0.1270

def FIN_ROOT_LEADING_EDGE_FROM_TAIL : ℚ := 0.38

/-! ### Parachute parameters (source lines 88-93) -/

def REEFED_CD : ℝ := 1.2

def REEFED_DIAMETER : ℝ := 1.2192

/-- Source line 90: REEFED_CD_S = REEFED_CD * pi * (REEFED_DIAMETER / 2) ** 2. -/
noncomputable def REEFED_CD_S : ℝ := REEFED_CD * Real.pi * (REEFED_DIAMETER / 2) ^ 2

def MAIN_CD : ℝ := 1.5

def MAIN_DIAMETER : ℝ := 2.7432

/-- Source line 93: MAIN_CD_S = MAIN_CD * pi * (MAIN_DIAMETER / 2) ** 2. -/
noncomputable def MAIN_CD_S : ℝ := MAIN_CD * Real.pi * (MAIN_DIAMETER / 2) ^ 2

/-! ### Parameter-deriver functions named by the spec (section 4.1).
The density and drag-area formulas are the ones inlined at source lines 68,
90 and 93, generalized over their parameters. -/

/-- Modelled from the spec: the function derive_grain_density of spec
section 4.1 exists in the source only as the inline constant formula of
line 68 applied to fixed valid constants; the spec additionally requires a
design-error signal (no value) when outer_radius is at most inner_radius,
grain_length is non-positive, or grain_count is non-positive. The formula
itself is the source's formula. -/
noncomputable def derive_grain_density (propellant_mass : ℝ) (grain_count : ℤ)
    (outer_radius inner_radius grain_length : ℝ) : Option ℝ :=
  if outer_radius ≤ inner_radius ∨ grain_length ≤ 0 ∨ grain_count ≤ 0 then
    none
  else
    some (propellant_mass /
      ((grain_count : ℝ) * Real.pi * (outer_radius ^ 2 - inner_radius ^ 2) * grain_length))

/-- Drag-area formula of source lines 90 and 93, generalized over the drag
coefficient and the diameter (the spec names it derive_drag_area). -/
noncomputable def derive_drag_area (cd diameter : ℝ) : ℝ :=
  cd * Real.pi * (diameter / 2) ^ 2

/-! ### Environment builder (source lines 96-108) -/

/-- Atmospheric mode of the environment: a forecast backed by a named data
source, or the standard atmosphere (ISA). -/
inductive AtmosphericModel where
  | forecast (file : String)
  | standardAtmosphere
  deriving DecidableEq

/-- Environment state as configured by build_environment: location, launch
date and the atmospheric mode chosen at construction time. -/
structure Environment where
  latitude : ℚ
  longitude : ℚ
  elevation : ℚ
  date : Option (ℕ × ℕ × ℕ × ℕ)
  atmosphericModel : Option AtmosphericModel
  deriving DecidableEq

/-- Observable outcome of one build_environment call: the environment it
returns, the diagnostics it printed, how many forecast attempts were made,
and whether the call itself raised. -/
structure BuildEnvResult where
  env : Environment
  diagnostics : List String
  forecastAttempts : ℕ
  raised : Bool
  deriving DecidableEq

/-- Embedding of build_environment (source lines 96-108). The external
forecast download (env.set_atmospheric_model with type Forecast) is
modelled by the parameter, which either succeeds or carries the raised
exception message; the Python function makes exactly one such attempt
inside a try block, prints a warning and falls back to the standard
atmosphere on any exception, and never re-raises. -/
def build_environment (forecastOutcome : Except String Unit) : BuildEnvResult :=
  let env0 : Environment :=
    { latitude := LAUNCH_LATITUDE
      longitude := LAUNCH_LONGITUDE
      elevation := LAUNCH_ELEVATION_M
      date := some LAUNCH_DATETIME_UTC
      atmosphericModel := none }
  match forecastOutcome with
  | Except.ok _ =>
      { env := { env0 with atmosphericModel := some (AtmosphericModel.forecast "GFS") }
        diagnostics := []
        forecastAttempts := 1
        raised := false }
  | Except.error exc =>
      { env := { env0 with atmosphericModel := some AtmosphericModel.standardAtmosphere }
        diagnostics :=
          ["Warning: could not download forecast data (" ++ exc ++ "). Using ISA instead."]
        forecastAttempts := 1
        raised := false }

/-! ### Motor builder (source lines 111-128) -/

/-- Solid-motor descriptor holding exactly the keyword arguments passed to
the SolidMotor constructor at source lines 112-128. -/
structure SolidMotor where
  thrust_source : List (ℚ × ℚ)
  dry_mass : ℚ
  dry_inertia : ℚ × ℚ × ℚ
  nozzle_radius : ℚ
  grain_number : ℕ
  grain_density : ℝ
  grain_outer_radius : ℝ
  grain_initial_inner_radius : ℝ
  grain_initial_height : ℝ
  grain_separation : ℚ
  grains_center_of_mass_position : ℚ
  center_of_dry_mass_position : ℚ
  nozzle_position : ℚ
  burn_time : ℚ
  throat_radius : ℚ

/-- Embedding of build_motor (source lines 111-128): records the constants
passed to the SolidMotor constructor. -/
noncomputable def build_motor : SolidMotor :=
  { thrust_source := THRUST_CURVE
    dry_mass := MOTOR_DRY_MASS
    dry_inertia := MOTOR_DRY_INERTIA
    nozzle_radius := NOZZLE_RADIUS
    grain_number := GRAIN_COUNT
    grain_density := GRAIN_DENSITY
    grain_outer_radius := GRAIN_OUTER_RADIUS
    grain_initial_inner_radius := GRAIN_INNER_RADIUS
    grain_initial_height := GRAIN_LENGTH
    grain_separation := GRAIN_SEPARATION
    grains_center_of_mass_position := MOTOR_CG_FROM_NOZZLE
    center_of_dry_mass_position := MOTOR_CG_FROM_NOZZLE
    nozzle_position := 0
    burn_time := BURN_TIME
    throat_radius := THROAT_RADIUS }

/-! ### Rocket assembly (source lines 131-179) -/

/-- Trigger specification of a recovery device: apogee detection, or a
fixed altitude above ground level crossed while descending. -/
inductive TriggerSpec where
  | apogee
  | altitudeAGL (threshold : ℚ)
  deriving DecidableEq

/-- Parachute configuration exactly as passed to add_parachute. -/
structure ParachuteSpec where
  name : String
  cd_s : ℝ
  trigger : TriggerSpec
  sampling_rate : ℕ
  lag : ℚ
  noise : ℚ × ℚ × ℚ

/-- Components attachable to the rocket, with the argument lists of the
corresponding add calls of source lines 142-177. -/
inductive Component where
  | motor (m : SolidMotor) (position : ℚ)
  | nose (length : ℚ) (kind : String) (position : ℚ) (name : String)
  | trapezoidalFins (n : ℕ) (root_chord tip_chord span position cant_angle : ℚ)
      (name : String)
  | parachute (p : ParachuteSpec)

/-- Rocket descriptor: the constructor arguments of source lines 132-140
plus the ordered list of attached components. -/
structure Rocket where
  radius : ℚ
  mass : ℚ
  inertia : ℚ × ℚ × ℚ
  power_off_drag : ℚ
  power_on_drag : ℚ
  center_of_mass_without_motor : ℚ
  coordinate_system_orientation : String
  components : List Component

/-- Modelled from the spec: the attachment primitives add_motor, add_nose,
add_trapezoidal_fins and add_parachute are library code not part of this
repository; per spec section 4.4 each attachment is a pure append to the
rocket's ordered component list. -/
def addComponent (r : Rocket) (c : Component) : Rocket :=
  { r with components := r.components ++ [c] }

/-- Reefed-parachute configuration of source lines 161-168. -/
noncomputable def reefedParachute : ParachuteSpec :=
  { name := "reefed"
    cd_s := REEFED_CD_S
    trigger := TriggerSpec.apogee
    sampling_rate := 105
    lag := 1.5
    noise := (0, 8.3, 0.5) }

/-- Main-parachute configuration of source lines 170-177. -/
noncomputable def mainParachute : ParachuteSpec :=
  { name := "main"
    cd_s := MAIN_CD_S
    trigger := TriggerSpec.altitudeAGL 305
    sampling_rate := 105
    lag := 1.5
    noise := (0, 8.3, 0.5) }

/-- Embedding of build_rocket (source lines 131-179): constructs the base
airframe and attaches, in source order, the motor at position 0, the nose
cone, the fin set with zero cant angle, and the two recovery devices. -/
noncomputable def build_rocket (motor : SolidMotor) : Rocket :=
  let rocket : Rocket :=
    { radius := ROCKET_RADIUS
      mass := ROCKET_DRY_MASS
      inertia := ROCKET_DRY_INERTIA
      power_off_drag := 0.6
      power_on_drag := 0.5
      center_of_mass_without_motor := ROCKET_DRY_CG_FROM_TAIL
      coordinate_system_orientation := "tail_to_nose"
      components := [] }
  let rocket := addComponent rocket (Component.motor motor 0)
  let rocket := addComponent rocket
    (Component.nose 0.4953 "ogive" (ROCKET_LENGTH) "Fiberglass Nose")
  let rocket := addComponent rocket
    (Component.trapezoidalFins 3 (FIN_ROOT_CHORD) (FIN_TIP_CHORD) (FIN_SPAN)
      (FIN_ROOT_LEADING_EDGE_FROM_TAIL) 0 "Aluminum Fins")
  let rocket := addComponent rocket (Component.parachute reefedParachute)
  let rocket := addComponent rocket (Component.parachute mainParachute)
  rocket

/-! ### Thrust-curve validity (spec section 4.3) -/

/-- Boolean check that the time components of consecutive samples are
strictly increasing. -/
def strictlyIncreasingTimes : List (ℚ × ℚ) → Bool
  | [] => true
  | [_] => true
  | a :: b :: rest => decide (a.1 < b.1) && strictlyIncreasingTimes (b :: rest)

/-! ### Recovery-trigger state machine (spec sections 4.5) -/

/-- One-shot status of a recovery device. A triggered or deployed state
remembers the time of its trigger tick. -/
inductive DeviceState where
  | armed
  | triggered (t0 : ℚ)
  | deployed (t0 : ℚ)
  deriving DecidableEq

/-- Forward ordering of device states: armed before triggered before
deployed. -/
def DeviceState.rank : DeviceState → ℕ
  | DeviceState.armed => 0
  | DeviceState.triggered _ => 1
  | DeviceState.deployed _ => 2

/-- One state sample fed to the trigger evaluator: sample time and
vertical velocity. -/
structure Sample where
  t : ℚ
  vz : ℚ
  deriving DecidableEq

/-- Apogee trigger condition at one sample tick: the tick is not before
motor burnout, and vertical velocity transitions from positive (previous
sample) to non-positive (this sample). -/
def apogeeFires (burnout prevVz : ℚ) (s : Sample) : Prop :=
  burnout ≤ s.t ∧ 0 < prevVz ∧ s.vz ≤ 0

instance (burnout prevVz : ℚ) (s : Sample) : Decidable (apogeeFires burnout prevVz s) :=
  inferInstanceAs (Decidable (_ ∧ _ ∧ _))

/-- Modelled from the spec: the recovery-trigger evaluator for an
apogee-kind device is library code not part of this repository; spec
sections 4.5 describe it as a one-shot state machine stepped once per
sample tick. The evaluator state carries the previous vertical velocity
together with the device state. Armed moves to Triggered when the apogee
condition fires; Triggered at time t0 moves to Deployed at the first tick
at least lag seconds after t0; Deployed is terminal. -/
def deviceStep (lag burnout : ℚ) (st : ℚ × DeviceState) (s : Sample) : ℚ × DeviceState :=
  (s.vz,
    match st.2 with
    | DeviceState.armed =>
        if apogeeFires burnout st.1 s then DeviceState.triggered s.t else DeviceState.armed
    | DeviceState.triggered t0 =>
        if t0 + lag ≤ s.t then DeviceState.deployed t0 else DeviceState.triggered t0
    | DeviceState.deployed t0 => DeviceState.deployed t0)

/-- Runs the trigger evaluator over a sequence of samples. -/
def runDevice (lag burnout : ℚ) (init : ℚ × DeviceState) (samples : List Sample) :
    ℚ × DeviceState :=
  samples.foldl (deviceStep lag burnout) init

/-- Time of the first sample tick at which the apogee condition fires,
threading each sample's vertical velocity as the next tick's previous
velocity; none when no tick fires. -/
def firstTrigger (burnout prevVz : ℚ) : List Sample → Option ℚ
  | [] => none
  | s :: rest =>
      if apogeeFires burnout prevVz s then some s.t else firstTrigger burnout s.vz rest

/-! ## Theorems -/

/-! ### Unfolding lemmas for the trigger state machine -/

lemma runDevice_nil (lag burnout : ℚ) (init : ℚ × DeviceState) :
    runDevice lag burnout init [] = init := rfl

lemma runDevice_cons (lag burnout : ℚ) (init : ℚ × DeviceState) (s : Sample)
    (rest : List Sample) :
    runDevice lag burnout init (s :: rest)
      = runDevice lag burnout (deviceStep lag burnout init s) rest := rfl

lemma deviceStep_armed (lag burnout v : ℚ) (s : Sample) :
    deviceStep lag burnout (v, DeviceState.armed) s
      = (s.vz, if apogeeFires burnout v s then DeviceState.triggered s.t
               else DeviceState.armed) := rfl

lemma deviceStep_triggered (lag burnout v t0 : ℚ) (s : Sample) :
    deviceStep lag burnout (v, DeviceState.triggered t0) s
      = (s.vz, if t0 + lag ≤ s.t then DeviceState.deployed t0
               else DeviceState.triggered t0) := rfl

lemma deviceStep_deployed (lag burnout v t0 : ℚ) (s : Sample) :
    deviceStep lag burnout (v, DeviceState.deployed t0) s
      = (s.vz, DeviceState.deployed t0) := rfl

/-! ### Behavior lemmas for the trigger state machine -/

lemma deviceStep_rank_le (lag burnout : ℚ) (st : ℚ × DeviceState) (s : Sample) :
    st.2.rank ≤ (deviceStep lag burnout st s).2.rank := by
  rcases st with ⟨v, st⟩
  cases st with
  | armed =>
      rw [deviceStep_armed]
      split <;> simp [DeviceState.rank]
  | triggered t0 =>
      rw [deviceStep_triggered]
      split <;> simp [DeviceState.rank]
  | deployed t0 =>
      rw [deviceStep_deployed]

lemma runDevice_rank_le (lag burnout : ℚ) (samples : List Sample) :
    ∀ init : ℚ × DeviceState,
      init.2.rank ≤ (runDevice lag burnout init samples).2.rank := by
  induction samples with
  | nil => intro init; rw [runDevice_nil]
  | cons s rest ih =>
      intro init
      rw [runDevice_cons]
      exact le_trans (deviceStep_rank_le lag burnout init s)
        (ih (deviceStep lag burnout init s))

lemma runDevice_deployed_snd (lag burnout : ℚ) (t0 : ℚ) (samples : List Sample) :
    ∀ v, (runDevice lag burnout (v, DeviceState.deployed t0) samples).2
      = DeviceState.deployed t0 := by
  induction samples with
  | nil => intro v; rw [runDevice_nil]
  | cons s rest ih =>
      intro v
      rw [runDevice_cons, deviceStep_deployed]
      exact ih s.vz

lemma runDevice_triggered_cases (lag burnout : ℚ) (t0 : ℚ) (samples : List Sample) :
    ∀ v, (runDevice lag burnout (v, DeviceState.triggered t0) samples).2
        = DeviceState.triggered t0 ∨
      (runDevice lag burnout (v, DeviceState.triggered t0) samples).2
        = DeviceState.deployed t0 := by
  induction samples with
  | nil => intro v; left; rw [runDevice_nil]
  | cons s rest ih =>
      intro v
      rw [runDevice_cons, deviceStep_triggered]
      by_cases h : t0 + lag ≤ s.t
      · rw [if_pos h]
        exact Or.inr (runDevice_deployed_snd lag burnout t0 rest s.vz)
      · rw [if_neg h]
        exact ih s.vz

lemma runDevice_triggered_deployed_iff (lag burnout : ℚ) (t0 : ℚ) (samples : List Sample) :
    ∀ v, ((runDevice lag burnout (v, DeviceState.triggered t0) samples).2
        = DeviceState.deployed t0 ↔ ∃ s ∈ samples, t0 + lag ≤ s.t) := by
  induction samples with
  | nil =>
      intro v
      rw [runDevice_nil]
      simp
  | cons s rest ih =>
      intro v
      rw [runDevice_cons, deviceStep_triggered]
      by_cases h : t0 + lag ≤ s.t
      · rw [if_pos h]
        simp only [List.mem_cons]
        constructor
        · intro _
          exact ⟨s, Or.inl rfl, h⟩
        · intro _
          exact runDevice_deployed_snd lag burnout t0 rest s.vz
      · rw [if_neg h]
        rw [ih s.vz]
        constructor
        · rintro ⟨s', hm, hs'⟩
          exact ⟨s', List.mem_cons_of_mem s hm, hs'⟩
        · rintro ⟨s', hm, hs'⟩
          rcases List.mem_cons.mp hm with heq | hm'
          · exact absurd (heq ▸ hs') h
          · exact ⟨s', hm', hs'⟩

lemma firstTrigger_nil (burnout v0 : ℚ) : firstTrigger burnout v0 [] = none := rfl

lemma firstTrigger_cons (burnout v0 : ℚ) (s : Sample) (rest : List Sample) :
    firstTrigger burnout v0 (s :: rest)
      = if apogeeFires burnout v0 s then some s.t
        else firstTrigger burnout s.vz rest := rfl

lemma runDevice_armed_firstTrigger (lag burnout : ℚ) (samples : List Sample) :
    ∀ v0,
      (firstTrigger burnout v0 samples = none →
        (runDevice lag burnout (v0, DeviceState.armed) samples).2 = DeviceState.armed) ∧
      (∀ t0, firstTrigger burnout v0 samples = some t0 →
        (runDevice lag burnout (v0, DeviceState.armed) samples).2
            = DeviceState.triggered t0 ∨
        (runDevice lag burnout (v0, DeviceState.armed) samples).2
            = DeviceState.deployed t0) := by
  induction samples with
  | nil =>
      intro v0
      refine ⟨fun _ => by rw [runDevice_nil], fun t0 ht => ?_⟩
      rw [firstTrigger_nil] at ht
      exact absurd ht (by simp)
  | cons s rest ih =>
      intro v0
      by_cases h : apogeeFires burnout v0 s
      · constructor
        · intro hn
          rw [firstTrigger_cons, if_pos h] at hn
          exact absurd hn (by simp)
        · intro t0 ht
          rw [firstTrigger_cons, if_pos h] at ht
          have ht' : s.t = t0 := Option.some.inj ht
          rw [runDevice_cons, deviceStep_armed, if_pos h, ht']
          exact runDevice_triggered_cases lag burnout t0 rest s.vz
      · constructor
        · intro hn
          rw [firstTrigger_cons, if_neg h] at hn
          rw [runDevice_cons, deviceStep_armed, if_neg h]
          exact (ih s.vz).1 hn
        · intro t0 ht
          rw [firstTrigger_cons, if_neg h] at ht
          rw [runDevice_cons, deviceStep_armed, if_neg h]
          exact (ih s.vz).2 t0 ht

/-- Ordered component list produced by build_rocket. -/
lemma build_rocket_components (motor : SolidMotor) :
    (build_rocket motor).components =
      [Component.motor motor 0,
       Component.nose 0.4953 "ogive" (ROCKET_LENGTH) "Fiberglass Nose",
       Component.trapezoidalFins 3 (FIN_ROOT_CHORD) (FIN_TIP_CHORD) (FIN_SPAN)
         (FIN_ROOT_LEADING_EDGE_FROM_TAIL) 0 "Aluminum Fins",
       Component.parachute reefedParachute,
       Component.parachute mainParachute] := rfl

/-! ### Numeric bounds on the derived constants -/

lemma grain_density_lb : (1779.5 : ℝ) < GRAIN_DENSITY := by
  have hu := Real.pi_lt_d6
  have hp := Real.pi_pos
  unfold GRAIN_DENSITY PROP_MASS GRAIN_COUNT GRAIN_OUTER_RADIUS GRAIN_INNER_RADIUS GRAIN_LENGTH
  push_cast
  rw [lt_div_iff₀ (by nlinarith)]
  nlinarith

lemma grain_density_ub : GRAIN_DENSITY < (1779.7 : ℝ) := by
  have hl := Real.pi_gt_d6
  have hp := Real.pi_pos
  unfold GRAIN_DENSITY PROP_MASS GRAIN_COUNT GRAIN_OUTER_RADIUS GRAIN_INNER_RADIUS GRAIN_LENGTH
  push_cast
  rw [div_lt_iff₀ (by nlinarith)]
  nlinarith

lemma main_cd_s_lb : (8.8653 : ℝ) < MAIN_CD_S := by
  have hl := Real.pi_gt_d6
  unfold MAIN_CD_S MAIN_CD MAIN_DIAMETER
  nlinarith

lemma main_cd_s_ub : MAIN_CD_S < (8.8654 : ℝ) := by
  have hu := Real.pi_lt_d6
  unfold MAIN_CD_S MAIN_CD MAIN_DIAMETER
  nlinarith

/-! ### Claim C3 -/

/-- C3 counterexample: the source value GRAIN_DENSITY (about 1779.6 kg/m3)
is not within 1 percent of 1667.7 kg/m3, so the claimed expected value
fails on the code. -/
theorem c3_grain_density_not_1667 : ¬ (|GRAIN_DENSITY - 1667.7| ≤ 0.01 * 1667.7) := by
  intro h
  have h2 := (abs_le.mp h).2
  have hlb := grain_density_lb
  linarith

/-- C3 amended: for propellant_mass 3.019 kg, 3 grains of outer radius
0.04 m, inner radius 0.01 m and length 0.12 m, the derived grain density
is approximately 1779.6 kg/m3, within 1 percent relative tolerance. -/
theorem c3_grain_density_value : |GRAIN_DENSITY - 1779.6| ≤ 0.01 * 1779.6 := by
  rw [abs_le]
  have hlb := grain_density_lb
  have hub := grain_density_ub
  constructor <;> linarith

/-! ### Claim C4 -/

/-- C4: for every valid grain geometry, the derived grain density times
grain count times pi times the annular cross-section area times the grain
length recovers the original propellant mass exactly (real arithmetic). -/
theorem c4_grain_density_roundtrip (m : ℝ) (c : ℤ) (R r L : ℝ)
    (hr : 0 ≤ r) (hR : r < R) (hL : 0 < L) (hc : 0 < c) :
    ∃ d, derive_grain_density m c R r L = some d ∧
      d * (c : ℝ) * Real.pi * (R ^ 2 - r ^ 2) * L = m := by
  have hcond : ¬ (R ≤ r ∨ L ≤ 0 ∨ c ≤ 0) := by
    push_neg
    exact ⟨hR, hL, hc⟩
  have hc' : (0 : ℝ) < (c : ℝ) := by exact_mod_cast hc
  have hsq : (0 : ℝ) < R ^ 2 - r ^ 2 := by nlinarith
  have hD : (0 : ℝ) < (c : ℝ) * Real.pi * (R ^ 2 - r ^ 2) * L :=
    mul_pos (mul_pos (mul_pos hc' Real.pi_pos) hsq) hL
  refine ⟨m / ((c : ℝ) * Real.pi * (R ^ 2 - r ^ 2) * L), ?_, ?_⟩
  · rw [derive_grain_density, if_neg hcond]
  · field_simp
    ring

/-- Witness for C4 at the source's concrete grain parameters. -/
theorem c4_grain_density_roundtrip_witness :
    ∃ d, derive_grain_density 3.019 3 0.04 0.01 0.12 = some d ∧
      d * ((3 : ℤ) : ℝ) * Real.pi * ((0.04 : ℝ) ^ 2 - (0.01 : ℝ) ^ 2) * 0.12 = 3.019 :=
  c4_grain_density_roundtrip 3.019 3 0.04 0.01 0.12 (by norm_num) (by norm_num)
    (by norm_num) (by norm_num)

/-! ### Claim C5 -/

/-- C5: for all positive cd and diameter, the derived parachute drag area
equals exactly cd times pi times (diameter over 2) squared, and the reefed
and main drag-area constants of the source are computed by this formula
from their cd and diameter constants. -/
theorem c5_drag_area_formula :
    (∀ cd diameter : ℝ, 0 < cd → 0 < diameter →
      derive_drag_area cd diameter = cd * Real.pi * (diameter / 2) ^ 2) ∧
    REEFED_CD_S = derive_drag_area REEFED_CD REEFED_DIAMETER ∧
    MAIN_CD_S = derive_drag_area MAIN_CD MAIN_DIAMETER :=
  ⟨fun _ _ _ _ => rfl, rfl, rfl⟩

/-- Witness for C5 at cd 1.5 and diameter 2.7432. -/
theorem c5_drag_area_formula_witness :
    derive_drag_area 1.5 2.7432 = 1.5 * Real.pi * ((2.7432 : ℝ) / 2) ^ 2 :=
  c5_drag_area_formula.1 1.5 2.7432 (by norm_num) (by norm_num)

/-! ### Claim C6 -/

/-- C6 counterexample: the source value MAIN_CD_S (about 8.8654 m2) is not
within 0.1 percent of 8.875 m2; the relative error is about 0.109 percent,
so the claimed tolerance fails on the code. -/
theorem c6_main_drag_area_not_within_tenth_percent :
    ¬ (|MAIN_CD_S - 8.875| ≤ 0.001 * 8.875) := by
  intro h
  have h1 := (abs_le.mp h).1
  have hub := main_cd_s_ub
  linarith

/-- C6 amended: for cd 1.5 and diameter 2.7432 m the derived drag area is
approximately 8.875 m2 within 0.11 percent relative tolerance (the actual
value is about 8.8654 m2). -/
theorem c6_main_drag_area_value : |MAIN_CD_S - 8.875| ≤ 0.0011 * 8.875 := by
  rw [abs_le]
  have hlb := main_cd_s_lb
  have hub := main_cd_s_ub
  constructor <;> linarith

/-! ### Claim C7 -/

/-- C7: the grain-density derivation signals a design error (produces no
value) whenever outer_radius is at most inner_radius, grain_length is
non-positive, or grain_count is non-positive; for inputs satisfying the
opposite preconditions with positive propellant mass it produces a
positive density. -/
theorem c7_grain_density_design_error :
    (∀ (m : ℝ) (c : ℤ) (R r L : ℝ), (R ≤ r ∨ L ≤ 0 ∨ c ≤ 0) →
      derive_grain_density m c R r L = none) ∧
    (∀ (m : ℝ) (c : ℤ) (R r L : ℝ), 0 < m → 0 ≤ r → r < R → 0 < L → 0 < c →
      ∃ d, derive_grain_density m c R r L = some d ∧ 0 < d) := by
  constructor
  · intro m c R r L h
    rw [derive_grain_density, if_pos h]
  · intro m c R r L hm hr hR hL hc
    have hcond : ¬ (R ≤ r ∨ L ≤ 0 ∨ c ≤ 0) := by
      push_neg
      exact ⟨hR, hL, hc⟩
    have hc' : (0 : ℝ) < (c : ℝ) := by exact_mod_cast hc
    have hsq : (0 : ℝ) < R ^ 2 - r ^ 2 := by nlinarith
    have hD : (0 : ℝ) < (c : ℝ) * Real.pi * (R ^ 2 - r ^ 2) * L :=
      mul_pos (mul_pos (mul_pos hc' Real.pi_pos) hsq) hL
    refine ⟨m / ((c : ℝ) * Real.pi * (R ^ 2 - r ^ 2) * L), ?_, ?_⟩
    · rw [derive_grain_density, if_neg hcond]
    · exact div_pos hm hD

/-- Witness for C7: an inverted geometry yields no value, the source's
geometry yields a positive density. -/
theorem c7_grain_density_design_error_witness :
    derive_grain_density 3.019 3 0.01 0.04 0.12 = none ∧
    ∃ d, derive_grain_density 3.019 3 0.04 0.01 0.12 = some d ∧ 0 < d :=
  ⟨c7_grain_density_design_error.1 3.019 3 0.01 0.04 0.12 (Or.inl (by norm_num)),
   c7_grain_density_design_error.2 3.019 3 0.04 0.01 0.12 (by norm_num) (by norm_num)
     (by norm_num) (by norm_num) (by norm_num)⟩

/-! ### Claim C2 -/

/-- C2: on any failure of the forecast attempt, build_environment emits
one diagnostic, sets the standard-atmosphere model, and returns without
raising; in either outcome exactly one forecast attempt is made (so no
retry happens on failure). -/
theorem c2_environment_fallback :
    (∀ exc : String,
      (build_environment (Except.error exc)).env.atmosphericModel
          = some AtmosphericModel.standardAtmosphere ∧
      (build_environment (Except.error exc)).diagnostics.length = 1 ∧
      (build_environment (Except.error exc)).raised = false) ∧
    (∀ o : Except String Unit, (build_environment o).forecastAttempts = 1) := by
  constructor
  · intro exc
    exact ⟨rfl, rfl, rfl⟩
  · intro o
    cases o <;> rfl

/-! ### Claim C8 -/

/-- C8: the thrust curve passed to build_motor is THRUST_CURVE, which is
non-empty (38 samples), has strictly increasing time values starting at 0,
non-negative thrust values, a final thrust sample of 0, and the burn time
passed to build_motor equals or exceeds the curve's last time sample. -/
theorem c8_thrust_curve_valid :
    build_motor.thrust_source = THRUST_CURVE ∧
    build_motor.burn_time = BURN_TIME ∧
    THRUST_CURVE.length = 38 ∧
    strictlyIncreasingTimes THRUST_CURVE = true ∧
    THRUST_CURVE.head?.map Prod.fst = some 0 ∧
    (THRUST_CURVE.all fun p => decide (0 ≤ p.2)) = true ∧
    THRUST_CURVE.getLast?.map Prod.snd = some 0 ∧
    (THRUST_CURVE.all fun p => decide (p.1 ≤ BURN_TIME)) = true := by
  refine ⟨rfl, rfl, by decide, ?_, ?_, ?_, ?_, ?_⟩ <;>
    norm_num [THRUST_CURVE, strictlyIncreasingTimes, BURN_TIME, List.getLast?,
      List.all, List.head?]

/-! ### Claim C9 -/

/-- C9: build_rocket attaches to the base airframe, in exactly this fixed
order, the motor at axial position 0, the nose cone, the fin set with zero
cant angle, and the two recovery devices; each attachment appends one
entry to the ordered component list without removing or reordering earlier
entries. -/
theorem c9_build_rocket_order :
    (∀ (r : Rocket) (c : Component),
      (addComponent r c).components = r.components ++ [c]) ∧
    (∀ motor : SolidMotor,
      (build_rocket motor).components =
        [Component.motor motor 0,
         Component.nose 0.4953 "ogive" (ROCKET_LENGTH) "Fiberglass Nose",
         Component.trapezoidalFins 3 (FIN_ROOT_CHORD) (FIN_TIP_CHORD) (FIN_SPAN)
           (FIN_ROOT_LEADING_EDGE_FROM_TAIL) 0 "Aluminum Fins",
         Component.parachute reefedParachute,
         Component.parachute mainParachute]) :=
  ⟨fun _ _ => rfl, fun _ => rfl⟩

/-! ### Claim C1 -/

/-- C1: the reefed parachute configured by build_rocket is an apogee-kind
device with deployment lag 1.5 s, and under any sequence of state samples
the device status only moves forward through Armed, Triggered, Deployed:
the rank never decreases; a triggered state never returns to Armed and
keeps its trigger time, and a deployed state is terminal; starting Armed,
the device stays Armed when no tick fires the apogee condition (vertical
velocity transitioning from positive to non-positive at or after motor
burnout) and becomes Triggered with the time of the first firing tick
otherwise; from Triggered at time t0 the device is Deployed exactly when a
sample at or after t0 plus lag has been processed. -/
theorem c1_apogee_device_behavior :
    (∀ motor : SolidMotor,
      Component.parachute reefedParachute ∈ (build_rocket motor).components) ∧
    reefedParachute.trigger = TriggerSpec.apogee ∧
    reefedParachute.lag = 1.5 ∧
    (∀ (lag burnout : ℚ) (init : ℚ × DeviceState) (samples : List Sample),
      init.2.rank ≤ (runDevice lag burnout init samples).2.rank) ∧
    (∀ (lag burnout v t0 : ℚ) (samples : List Sample),
      (runDevice lag burnout (v, DeviceState.triggered t0) samples).2
          = DeviceState.triggered t0 ∨
      (runDevice lag burnout (v, DeviceState.triggered t0) samples).2
          = DeviceState.deployed t0) ∧
    (∀ (lag burnout v t0 : ℚ) (samples : List Sample),
      (runDevice lag burnout (v, DeviceState.deployed t0) samples).2
          = DeviceState.deployed t0) ∧
    (∀ (lag burnout v0 : ℚ) (samples : List Sample),
      (firstTrigger burnout v0 samples = none →
        (runDevice lag burnout (v0, DeviceState.armed) samples).2 = DeviceState.armed) ∧
      (∀ t0, firstTrigger burnout v0 samples = some t0 →
        (runDevice lag burnout (v0, DeviceState.armed) samples).2
            = DeviceState.triggered t0 ∨
        (runDevice lag burnout (v0, DeviceState.armed) samples).2
            = DeviceState.deployed t0)) ∧
    (∀ (lag burnout v t0 : ℚ) (samples : List Sample),
      ((runDevice lag burnout (v, DeviceState.triggered t0) samples).2
          = DeviceState.deployed t0 ↔ ∃ s ∈ samples, t0 + lag ≤ s.t)) := by
  refine ⟨?_, rfl, rfl, ?_, ?_, ?_, ?_, ?_⟩
  · intro motor
    rw [build_rocket_components]
    simp
  · intro lag burnout init samples
    exact runDevice_rank_le lag burnout samples init
  · intro lag burnout v t0 samples
    exact runDevice_triggered_cases lag burnout t0 samples v
  · intro lag burnout v t0 samples
    exact runDevice_deployed_snd lag burnout t0 samples v
  · intro lag burnout v0 samples
    exact runDevice_armed_firstTrigger lag burnout samples v0
  · intro lag burnout v t0 samples
    exact runDevice_triggered_deployed_iff lag burnout t0 samples v

/-- Witness for C1: a concrete rising-then-falling velocity series with
burnout at time 5 triggers at the first non-positive-velocity tick, time
6. -/
theorem c1_apogee_device_behavior_witness :
    (runDevice 2 5 (1, DeviceState.armed)
        [⟨5, 10⟩, ⟨6, -1⟩, ⟨9, -5⟩]).2 = DeviceState.triggered 6 ∨
    (runDevice 2 5 (1, DeviceState.armed)
        [⟨5, 10⟩, ⟨6, -1⟩, ⟨9, -5⟩]).2 = DeviceState.deployed 6 :=
  (c1_apogee_device_behavior.2.2.2.2.2.2.1 2 5 1
    [⟨5, 10⟩, ⟨6, -1⟩, ⟨9, -5⟩]).2 6 (by decide)

/-! ### Claim C10 -/

/-- C10: in both outcomes of build_environment the returned environment
carries latitude 35.5, longitude -102.3, elevation 971.1 m, and launch
date 2025-10-12 18:00 UTC, and any two outcomes agree on every field
except the atmospheric model. -/
theorem c10_environment_frame :
    (∀ o : Except String Unit,
      (build_environment o).env.latitude = 35.5 ∧
      (build_environment o).env.longitude = -102.3 ∧
      (build_environment o).env.elevation = 971.1 ∧
      (build_environment o).env.date = some (2025, 10, 12, 18)) ∧
    (∀ o1 o2 : Except String Unit,
      (build_environment o1).env =
        { (build_environment o2).env with
            atmosphericModel := (build_environment o1).env.atmosphericModel }) := by
  constructor
  · intro o
    cases o <;> exact ⟨rfl, rfl, rfl, rfl⟩
  · intro o1 o2
    cases o1 <;> cases o2 <;> rfl

end Simulate
